import Mathlib

/-!
Verification of the temporary-domain tracking service (`TempDomainService`,
`src/services/TempDomainService.ts`) of the trial-abuse-guard repository.

The TypeScript class keeps an in-memory `Set<string>` of domains, loads it
from a JSON file or a built-in array, merges in domains fetched from remote
text sources, and answers membership queries.  We embed the class shallowly:

* the `Set<string>` field becomes a `Finset String`;
* each method becomes a pure Lean function on an explicit `ServiceState`;
* the results of `fs.readFile`/`JSON.parse` and of `axios.get` (environment
  effects that the class catches internally) become explicit parameters;
* the JavaScript regular-expression literal used by `isValidDomain` is
  transcribed into a small regular-expression datatype `RE` with an
  executable Brzozowski-derivative matcher, proved equivalent to the
  declarative matching relation `RMatch`.

Strings are manipulated through their underlying character lists so that all
definitions compute by kernel reduction.
-/

/-! ### A small regular-expression engine

`RE` represents the fragment of ECMAScript regular expressions that the
service uses: character classes (as decidable predicates), concatenation,
alternation and Kleene star.  `RMatch` is the declarative matching relation;
`nullable`/`deriv` give the executable matcher. -/

inductive RE : Type where
  | emp : RE
  | eps : RE
  | cls (p : Char → Bool) : RE
  | cat (r₁ r₂ : RE) : RE
  | alt (r₁ r₂ : RE) : RE
  | star (r : RE) : RE

/-- Declarative semantics: `RMatch r cs` holds when the whole character list
`cs` is in the language of `r`. -/
inductive RMatch : RE → List Char → Prop where
  | eps : RMatch .eps []
  | cls {p : Char → Bool} {c : Char} : p c = true → RMatch (.cls p) [c]
  | catm {r₁ r₂ : RE} {s₁ s₂ : List Char} :
      RMatch r₁ s₁ → RMatch r₂ s₂ → RMatch (.cat r₁ r₂) (s₁ ++ s₂)
  | altL {r₁ r₂ : RE} {s : List Char} : RMatch r₁ s → RMatch (.alt r₁ r₂) s
  | altR {r₁ r₂ : RE} {s : List Char} : RMatch r₂ s → RMatch (.alt r₁ r₂) s
  | starNil {r : RE} : RMatch (.star r) []
  | starCons {r : RE} {s₁ s₂ : List Char} :
      RMatch r s₁ → RMatch (.star r) s₂ → RMatch (.star r) (s₁ ++ s₂)

/-- Does `r` accept the empty word? -/
def RE.nullable : RE → Bool
  | .emp => false
  | .eps => true
  | .cls _ => false
  | .cat r₁ r₂ => r₁.nullable && r₂.nullable
  | .alt r₁ r₂ => r₁.nullable || r₂.nullable
  | .star _ => true

/-- Brzozowski derivative of `r` with respect to the character `c`. -/
def RE.deriv (c : Char) : RE → RE
  | .emp => .emp
  | .eps => .emp
  | .cls p => if p c then .eps else .emp
  | .cat r₁ r₂ =>
      if r₁.nullable then .alt (.cat (RE.deriv c r₁) r₂) (RE.deriv c r₂)
      else .cat (RE.deriv c r₁) r₂
  | .alt r₁ r₂ => .alt (RE.deriv c r₁) (RE.deriv c r₂)
  | .star r => .cat (RE.deriv c r) (.star r)

/-- Executable whole-string matcher: fold the derivative over the input and
test nullability, modelling `RegExp.prototype.test` against an anchored
pattern. -/
def RE.matchRE (r : RE) (cs : List Char) : Bool :=
  (cs.foldl (fun r c => RE.deriv c r) r).nullable

/-! ### Character-list string helpers

Models of the JavaScript string operations the service uses
(`toLowerCase`, `trim`, `split('\n')`, `startsWith`), defined by structural
recursion on the underlying character list so they compute by kernel
reduction.  The domain data handled by the service is ASCII, so the ASCII
fragments of the JavaScript operations are the faithful model. -/

/-- Model of `String.prototype.toLowerCase` on ASCII: map `A`-`Z` to
`a`-`z`, leave everything else unchanged. -/
def asciiLowerChar (c : Char) : Char :=
  if 65 ≤ c.toNat ∧ c.toNat ≤ 90 then Char.ofNat (c.toNat + 32) else c

/-- Lowercase a whole string (model of `toLowerCase`). -/
def toLowerStr (s : String) : String :=
  ⟨s.data.map asciiLowerChar⟩

/-- Whitespace characters recognised by `String.prototype.trim` (ASCII
fragment). -/
def isJsWhitespace (c : Char) : Bool :=
  c = ' ' || c = '\t' || c = '\n' || c = '\r' || c = '\x0b' || c = '\x0c'

/-- Model of `String.prototype.trim`: drop whitespace from both ends. -/
def trimStr (s : String) : String :=
  ⟨((s.data.dropWhile isJsWhitespace).reverse.dropWhile isJsWhitespace).reverse⟩

/-- `domain.toLowerCase().trim()`, the normalization used by
`addDomains`/`removeDomains`. -/
def normalizeDomain (d : String) : String :=
  trimStr (toLowerStr d)

/-- Split a character list at newline characters, keeping empty pieces,
exactly as `String.prototype.split('\n')` does. -/
def splitNl : List Char → List (List Char)
  | [] => [[]]
  | c :: cs =>
      let r := splitNl cs
      if c = '\n' then [] :: r
      else
        match r with
        | [] => [[c]]
        | h :: t => (c :: h) :: t

/-- Model of `data.split('\n')`. -/
def splitLines (s : String) : List String :=
  (splitNl s.data).map (fun cs => ⟨cs⟩)

/-- Model of `String.prototype.startsWith`. -/
def startsWithStr (s pre : String) : Bool :=
  pre.data.isPrefixOf s.data

/-! ### The domain-validation regular expression

`TempDomainService.isValidDomain` tests the candidate against the literal
`/^[a-z0-9]+([\-\.]{1}[a-z0-9]+)*\.[a-z]{2,}$/i` and requires
`domain.length <= 253`.  The `i` flag makes the letter ranges match both
cases, so the character classes below include `A`-`Z`. -/

/-- The class `[a-z0-9]` under the `i` flag. -/
def alnumClass (c : Char) : Bool :=
  ('a' ≤ c && c ≤ 'z') || ('A' ≤ c && c ≤ 'Z') || ('0' ≤ c && c ≤ '9')

/-- The class `[a-z]` under the `i` flag. -/
def letterClass (c : Char) : Bool :=
  ('a' ≤ c && c ≤ 'z') || ('A' ≤ c && c ≤ 'Z')

/-- The class `[\-\.]` (a hyphen or a dot). -/
def sepClass (c : Char) : Bool :=
  c = '-' || c = '.'

/-- The literal `\.`. -/
def dotClass (c : Char) : Bool :=
  c = '.'

/-- `r+` as `r · r*`. -/
def RE.plus (r : RE) : RE :=
  .cat r (.star r)

/-- Transcription of `^[a-z0-9]+([\-\.]{1}[a-z0-9]+)*\.[a-z]{2,}$` (the
anchors are the whole-string match performed by `matchRE`); `[a-z]{2,}` is
`[a-z][a-z][a-z]*`. -/
def domainRE : RE :=
  .cat (RE.plus (.cls alnumClass))
    (.cat (.star (.cat (.cls sepClass) (RE.plus (.cls alnumClass))))
      (.cat (.cls dotClass)
        (.cat (.cls letterClass) (.cat (.cls letterClass) (.star (.cls letterClass))))))

/-- Translation of `TempDomainService.isValidDomain`:
`domainRegex.test(domain) && domain.length <= 253`. -/
def isValidDomain (domain : String) : Bool :=
  domainRE.matchRE domain.data && domain.length ≤ 253


/-! ### The built-in domain list

Transcription of the `builtInDomains` array of `TempDomainService`
(1183 entries, duplicates included, exactly as in the source). -/

def builtInDomains : List String := [
  "maildim.com", "moakt.com", "mailsac.com", "minimail.eu.org", "mintemail.com", "mail-temp.com",
  "remaild.com", "simoaudio.live", "ferrer-lozano.es", "fbclone.com", "hieu.in", "naylonksosmed.com",
  "24hinbox.com", "likemaxcare.com", "bankinnepal.com", "kerkenezali.space", "hotrokh.com", "code-gmail.com",
  "topnnov.ru", "adb3s.com", "smartretireway.com", "mutudev.com", "airmail.top", "anhhungrom47.xyz",
  "btcmod.com", "alightmotion.id", "hitbase.net", "ds4kojima.com", "newssolor.com", "peakfixkey.com",
  "nhungdang.xyz", "towintztf.top", "cumfoto.com", "xdigit.top", "dmxs8.com", "chatwesi.com",
  "mobilevents.es", "buybm.one", "honesthirianinda.net", "premiapp.com", "reaktifmuslim.network", "strongnutricion.es",
  "alikmotion.com", "linkjetdata.com", "auraness.com", "primerisegrid.com", "pdood.com", "nanopools.info",
  "aikoreaedu.com", "businesscell.network", "dqmail.org", "1820mail.vip", "furkanozturk.cfd", "dichvuxe24h.com",
  "razeny.com", "gmailot.com", "boranora.com", "chantellegribbon.com", "bytedigi.com", "brieffirst.com",
  "tmxttvmail.com", "karenvest.com", "igdinhcao.click", "rsmspca.com", "gmaillk.com", "rentproxy.xyz",
  "hotsmial.click", "chiamn.com", "caychayyy.shop", "past-line.com", "viavuive.net", "atticus-finch.es",
  "ecoverseworld.com", "easyhomefit.com", "mindoraspace.com", "riff-store.com", "daemonixgames.com", "zsdigital.tech",
  "zhiezpremium.store", "berryslimming.com", "bukanimers.com", "bosakun.com", "sanalcell.network", "flyriseweb.com",
  "pakservices.info", "auhit.com", "k4money.com", "fsercure.com", "marattok.com", "elisestyle.shop",
  "patity.com", "cosoinan.com", "nanatha.academy", "capcutku.io", "storepro.site", "doremifasoleando.es",
  "capzone.io", "doanhnhanfacebook.com", "harmfulsarianti.co", "patance.com", "lidercontabilidadebrasil.com", "cayxupro5.com",
  "retroholics.es", "chongqilai.cc", "bobbytc.cc", "bytonf.com", "capcuter.com", "nowpodbid.com",
  "danielmunoz.es", "ayahseviana.io", "tastmemail.com", "asteraavia.ru", "scatterteam.com", "secretreview.net",
  "jobstreet.cam", "maxseeding.vn", "muagicungre.com", "datquynhon.net", "edgepodlab.com", "quyinvis.net",
  "smartgrasspools.tech", "laksamantunggalakma.me", "gmail2.shop", "fdfriend.store", "hieuclone.net", "nguyenvuquocanh.com",
  "parcival-store.net", "muataikhoan.info", "akunku.shop", "physicaladithama.io", "dothivinhomescangio.vn", "omggreatfoods.com",
  "digitalproductprovider.com", "coffeepancakewafflebacon.com", "likevip.net", "chinaqoe.com", "happiseektest.com", "genztrang.com",
  "yotomail.com", "supporttc.com", "lellolidk.de", "azulejoslowcost.es", "mail12h.com", "gemapan.com",
  "googl.win", "besnetor.com", "betteryoutime.com", "forumfreeai.com", "i-love-you-3000.net", "peakwavepro.com",
  "oposite.org", "automizly.net", "capcutku.com", "vuatrochoi.online", "basefixzone.com", "coochi.nl",
  "trywavegrid.com", "mailfance.com", "tritunggalmail.com", "ngontol.com", "killlove.site", "jibbangod.biz",
  "incompetentgracia.net", "nadajoa.com", "roseau.me", "contabilidadebrasil.org", "kazinkana.com", "puzzlepro.es",
  "naverly.com", "peakfizz.com", "vitinhlonghai.com", "selaciptama.com", "dontsleep404.com", "biscuitvn15.xyz",
  "chaoji.icu", "caosusaoviet.vn", "naverapp.com", "starnlink.com", "zarabar.com", "susumart.com",
  "basebuykey.com", "mitrabisa.com", "docbao7.com", "locmediaxl.com", "banmailco.site", "erkjhgbtert.online",
  "halamanenuy.net", "jonsjav.cc", "autospozarica.com", "bestbot.pro", "premiumvns.com", "findids.net",
  "88cloud.cc", "reditd.asia", "jitteryfajarwati.co", "25sas.help", "situsbebas.com", "ebarg.net",
  "nhotv.com", "k-global.dev", "zoomintens.com", "gmail2.gq", "clonevnmail.com", "jagomail.com",
  "zenbada.com", "boostme.es", "pendapatmini.net", "joytoc.com", "konterkulo.com", "piqamail.top",
  "visionarysylvia.biz", "elmos.es", "livegolftv.com", "trantienclone.top", "5conto.com", "cggup.com",
  "shopvia2fa.net", "mailphu.com", "doods7.com", "mailx.click", "mewnwh.cc", "vregion.ru",
  "thulinh.net", "kelangthang.com", "tamsholdings.com", "taptoplab.com", "easygbd.com", "chupanhcuoidep.vn",
  "siminfoscent.cfd", "thef95zone.com", "ship79.com", "hutmails.com", "javamusic.id", "p-y.cc",
  "vibertees.com", "orbitjolly.com", "tms.sale", "private-year.com", "basepathgrid.com", "portaltrendsarena.com",
  "jualakun.com", "rajaiblis.com", "vienphunxamvidy.com", "excipientnetwork.com", "nguyenlieu24h.com", "monijoa.com",
  "email-temp.com", "goldinbox.net", "tramynguyen.net", "pickuplanet.com", "1trionclub.com", "autoxugiare.com",
  "zoomku.pro", "extraku.net", "nelcoapps.com", "ppaa.help", "peakance.com", "brenlova.com",
  "receita-iof.org", "thaitudang.xyz", "irpine.com", "681mail.com", "tiktokngon.com", "stubbornakdani.io",
  "cederajenab.biz", "lovelynazar.net", "xinnian.sbs", "replicant.club", "book4money.com", "nowfixweb.com",
  "thuexedulichhanoi.com", "wintersarea.xyz", "quockhanh8686.top", "816qs.com", "cloneiostrau.org", "codemail1.com",
  "guaierzi.icu", "dvseeding.vn", "otpku.com", "igdinhcao.com", "bjs-team.com", "kiluch.com",
  "clonemailgiare.com", "fastmails.info", "king.buzz", "reacc.me", "xapimail.top", "h0tmaii.com",
  "care-breath.com", "emailkp.com", "nowhex.com", "linkbm365.com", "khoigame.com", "gocampready.com",
  "luonglanhlung.com", "seohesapmarket.com", "aiqoe.com", "onasabiz.com", "wotomail.com", "datphuyen.net",
  "gfacc.net", "wochaojibang.sbs", "beautyshine.club", "katanajp.online", "etchingdoangia.com", "fbviamail.com",
  "pizzamagic.com", "kk1.lol", "youngbloodproductions.site", "pertinenthersavira.net", "kierastyle.shop", "meta-support-12sk6xj81.com",
  "yourfreegalleries.net", "xxx-tower.net", "iskiie.com", "eewmaop.com", "quanpzo.click", "mariascloset.org",
  "dogonoithatlienha.com", "muratreis.icu", "nichaoxing.cc", "bilcnk.online", "shareithub.com", "clonetrust.com",
  "tlwmail.xyz", "energen.live", "chahcyrans.com", "4xoay.com", "xcvzfjrsnsnasd.sbs", "mabubsa.com",
  "vps79.com", "banhang14.com", "hubglee.com", "itm311.com", "foodkachi.com", "rapatbahjatya.net",
  "picsviral.net", "gulasurakhman.net", "sparkletoc.com", "varslily.com", "juliachic.shop", "lechatiao.com",
  "996a.lol", "puretoc.com", "cuongaquarium.com", "housereformas.es", "raraa.store", "xuchuyen.com",
  "hopeence.com", "auraity.com", "shiita12.com", "putameda.com", "edgetopgrid.com", "iristrend.shop",
  "narcoboy.sbs", "khoke.nl", "tangeriin.com", "bb99.lol", "fitmindgate.com", "tandlplith.se",
  "karbonaielite.com", "thichkiemtien.com", "danangsale.net", "trantienclone.fun", "tryhivekey.com", "f2pools.info",
  "akbip.com", "successfulnewspedia.com", "byzoometri.com", "melyshop.es", "xeana.co", "automisly.org",
  "nethubmail.net", "drewhousethe.com", "khuong.store", "eise.es", "baseflowpro.com", "linkfieldrun.com",
  "timkiems.com", "kabarr.com", "anhvip9999.com", "cabangnursalina.net", "onaxgames.com", "sddsfds.help",
  "lilywear.shop", "tipuni.com", "mudahmaxwin.com", "forummaxai.com", "auraence.com", "ntspace.shop",
  "24mail.top", "thodianamdu.com", "hieuclone.com", "gimail.cloud", "subrevn.net", "basemindway.com",
  "moreablle.com", "kaisercafe.es", "edusch.id", "louxor.shop", "shiptudo.com", "hulaspalmcourt.com",
  "sonophon.ru", "fuadd.me", "foxnew.info", "savemydinar.com", "zndsmail.com", "viralmedianew.me",
  "latihanindrawati.net", "fintechistanbul.net", "w-k.lol", "prince.id", "profilepictureguard.club", "healthsoulger.com",
  "himkinet.ru", "h0tmal.com", "c-newstv.ru", "mantapua.online", "baobaosport.com", "47bmt.com",
  "77mail.xyz", "chaocosen.com", "mailcok.com", "bookwormsboutiques.com", "lucktoc.com", "sozenit.com",
  "johanssondeterry.es", "xusieure.com", "finovatechnow.com", "goldenmagpies.com", "ghvv.click", "annavogue.shop",
  "techhubup.com", "shahidrazi.online", "kenvanharen.com", "netmon.ir", "theking.id", "gmailo.net",
  "ghv.pics", "via17.com", "reviewfood.vn", "tappathrun.com", "phucmmo.com", "yaholo.cloud",
  "fclone.net", "thichmmo.com", "filespure.com", "laptopnamdinh.com", "newgoldkey.com", "mlgmail.top",
  "jarringsafri.biz", "pow-pows.com", "lordpopi.com", "autoxugiare.net", "tmailnesia.com", "yogurtdolapta.top",
  "casinolotte.com", "quinz.me", "speeddataanalytics.com", "offensivealiwardhana.net", "logicampus.live", "treterter.shop",
  "redproxies.com", "binanceglobalpoolspro.cloud", "agallagher.id", "gmaii.click", "effortlessinneke.io", "rincianjuliadi.net",
  "mulyan.top", "muvilo.net", "jugramh.com", "ttmail.vip", "ourl.me", "hahaha.vn",
  "omarnasrrr.com", "generator1email.com", "cloneads.top", "liquidacionporsuicidio.es", "shoha.cc", "gmaiil.top",
  "linkfixweb.com", "warunkpedia.com", "kamazacl.cfd", "plussparkzen.com", "hatanet.network", "jibbo01.com",
  "niceminute.com", "accountscenter.support", "kulapozca.cfd", "deviouswiraswati.biz", "worldproai.com", "tikarmeiriana.biz",
  "orkaled.es", "proxy4gs.com", "supplementwiki.org", "gridnewai.com", "phucmmo.com", "navermx.com",
  "movieisme.co", "bqsaptri.ovh", "insidiousahmadi.biz", "casaderta.com", "goliszek.net", "donusumekatil.com",
  "humanzty.com", "wsj.homes", "adsensekorea.com", "antamdesign.site", "bypyn.es", "nguyentinhblog.com",
  "ayazmarket.network", "whatthefish.info", "penampilannieken.io", "risantekno.com", "baconpro.network", "fviamail.com",
  "itovn.net", "retroflavor.info", "eliotkids.com", "diadiemmuasambienhoa.com", "glowible.com", "mos-kwa.ru",
  "linkbitsmart.com", "getcode1.com", "statsbyte.com", "shopcobe.com", "gollums.blog", "mailgg.org",
  "sirkelvip.com", "tuku26012023.xyz", "xuongdam.com", "vietfashop.com", "ahrixthinh.net", "mailpro.icu",
  "observantmarcelina.net", "corefitrun.com", "newbreedapps.com", "clonechatluong.net", "sugarloafstudios.net", "warunkpedia.com",
  "gamersdady.com", "soul-association.com", "nolopiok.baby", "questhivehub.com", "briefbest.com", "rackabzar.com",
  "muahetbienhoa.com", "onemailserv.xyz", "hearkn.com", "boxmailvn.com", "mentongwang.com", "bizisstance.com",
  "millimnava.info", "selecsa.es", "hqt.one", "justep.news", "thoitrangquyco.vn", "trizz.xyz",
  "muaviagiare.com", "primejetnet.com", "kimberlyindustry.shop", "integrately.net", "automizelymail.info", "miscalhero.com",
  "xezo.live", "plussparknet.com", "katanajp.shop", "lushily.top", "duosakhiy.com", "gdqoe.net",
  "skyfieldhub.com", "memosly.sbs", "sunnyblogexpress.com", "discolive.site", "nguyendanhkietisocial.com", "maxseeding.com",
  "edirectai.com", "trumclone.net", "getcashstash.com", "luckence.com", "multifitai.com", "kantclass.com",
  "setxko.com", "tignovate.com", "highstudios.net", "primails.me", "serbaada.me", "gethexbox.com",
  "available-home.com", "corejetgrid.com", "nst-customer.com", "bienhoamarketing.com", "unfortunatesanny.net", "smanik2.xyz",
  "infobuzzsite.com", "posiedon.site", "insightsite.com", "via902.com", "rangkutimail.me", "omg-greatfood.com",
  "teknolcom.com", "mybrainsme.fun", "mytempmail.org", "zohoseek.com", "email-very.com", "asistx.net",
  "plusfieldzone.com", "phimteen.net", "naiveyuliandari.biz", "youanmi.cc", "vamflowers.com", "cbghot.com",
  "ckiaspal.ovh", "11jac.com", "htmail.store", "iapermisul.ro", "trumclone.click", "ceria.cloud",
  "spwmrk.xyz", "clonemailsieure.com", "worldwide-hungerrelief.org", "siteinfox.com", "ducclone.com", "austingambles.org",
  "foodieinfluence.pro", "dishow.net", "esimpleai.com", "jieluv.com", "ligolfcourse.online", "mmo55.com",
  "kavaint.net", "cloudmails.tech", "cloneigngon.click", "motionisme.io", "phanmembanhang24h.com", "refinedsatryadi.net",
  "heavenlyyunida.biz", "tanglike94.win", "shopmmovn.com", "codt.site", "availablewibowo.biz", "otpmail.top",
  "scholarshipcn.com", "egepalat.cfd", "inijamet.fun", "torrentclub.space", "textsave.net", "mailvn.top",
  "sflike.org", "vastorestaurante.net", "joyhivepro.com", "locmedia.asia", "calmgatot.net", "fennel.team",
  "tgbkun.site", "afandi.baby", "aijuice.net", "automizely.info", "markanpla.cfd", "porry.store",
  "cfazal.cfd", "mailyuk.com", "zenbyul.com", "thaiphone.online", "ses4services.net", "kailmacas.cfd",
  "benedict90.org", "solkill.store", "mekerlcs.cfd", "podhub.email", "xuncoco.es", "stripehitter.site",
  "udinnews.com", "temperatebellinda.biz", "pastipass.com", "mailgetget.asia", "meldedigital.com", "dukunmodern.id",
  "gunayseydaoglu.cfd", "hotrometa.com", "imaanpharmacy.com", "loyalhost.org", "remailt.net", "napmails.com",
  "haanhwedding.com", "modujoa.com", "mailcuk.com", "corebitrun.com", "gassscloud.net", "ixsus.website",
  "khuonghung.com", "trumclone.com", "hollyvogue.shop", "nhanquafreefire.net", "vinaclicks.com", "bossmanjack.store",
  "breaksmedia.com", "williamcxnjer.sbs", "khada.vn", "geekpc-international.com", "izhowto.com", "nofxmail.com",
  "dipan.xyz", "tinyios.com", "silangmata.com", "dedesignessentials.com", "comprar-com-desconto.com", "akhirluvia.biz",
  "closedbyme.com", "minhquan86.top", "criteriourbano.es", "vlrregulatory.com", "matjoa.com", "dsantoro.es",
  "logichexbox.com", "8844shop.com", "sieuthiclone.com", "fitmapgate.com", "clonekhoe.com", "demowebsite02.click",
  "vedastyle.shop", "loridu.com", "pusatinfokita.com", "polatfafsca.shop", "viciouskhalfia.io", "redaksikabar.com",
  "getimell.com", "discorded.io", "tnhshop.site", "paffoca.shop", "allabilarskrotas.se", "bossmanjack.lol",
  "lapanganrhama.biz", "feelmyheartwithsong.com", "apotekberjalan.com", "fun-images.com", "quatetaline.com", "0411cs.com",
  "phobicpatiung.biz", "risanmedia.id", "mzastore.com", "cilmiyom.online", "inmolaryx.es", "zephyrustech.co",
  "elite21miners.site", "bbacademy.es", "polatalam.network", "qaclk.com", "tipsgrid.com", "vegetariansafitri.biz",
  "inly.vn", "tiredecalz.com", "chatgpt-ar.com", "arenahiveai.com", "nowbuyway.com", "genjosam.com",
  "buffmxh.net", "portalliveai.com", "medanmacao.site", "purearenas.com", "iyfr.es", "bgz2kl.com",
  "mjg24.com", "hubinstant.com", "kietnguyenisocial.com", "tuongxanh.net", "biscuitvn.xyz", "racfq.com",
  "taphoaclone.net", "top10k.com", "bahannes.network", "beraxs.id", "krpbroadcasting.com", "g8e8.com",
  "hovanfood.com", "fmuss.com", "duniakeliling.com", "mkualpmzac.cfd", "phucdpi3112.com", "bestjoayo.com",
  "mskintw.top", "tradepopclick.com", "doodj.com", "braseniors.com", "giangcho2000.asia", "reportfresh.com",
  "thueotp.net", "bemone.com", "adgome.com", "kreasianakkampoeng.com", "anderbeck.se", "dpcdn.cn",
  "gakhum.com", "seangroup.org", "clone79.com", "bmuss.com", "deepsdigitals.xyz", "unioc.asia",
  "fitanu.info", "storetaikhoan.com", "zumruttepe.com", "kongtoan.com", "webpromailbox.com", "skyjetnet.com",
  "pdaoffice.com", "kemalcaz.cfd", "lurekmazcm.cfd", "tainguyenfbchat.com", "minedwarfpoolstop.online", "usgpeople.es",
  "duccong.pro", "likevippro.site", "binhvt.com", "belugateam.info", "giayhieucu.com", "gioidev.news",
  "suryapasti.com", "brandshield-ip.com", "hareketliler.network", "formilaraibot.vip", "arthurgerex.network", "zmedia.cloud",
  "getmail1.com", "webinarmoa.com", "maklacpolza.cfd", "sangvt.com", "disipulo.com", "paneltiktok.com",
  "thip-like.com", "onlinecmail.com", "abdullaaaa.online", "nutrijoayo.com", "nimrxd.com", "sonpu.xyz",
  "tqc-sheen.com", "sinbox.asia", "faultydeniati.net", "sarawakreport.com", "sumberakun.com", "flameoflovedegree.com",
  "hmuss.com", "doteluxe.com", "khongtontai.tech", "iskiie.info", "pp-ahbaab-al-ikhlash.com", "mmo05.com",
  "linkhivezone.com", "thinhmin.com", "ikanchana.com", "sentimentdate.com", "edgenestlab.com", "sparkpool.info",
  "murahpanel.com", "tracklacker.com", "plusfitgate.com", "vcsid.com", "emg.pw", "marketmail.info",
  "cakybo.com", "quangvps.com", "tatotzracing.com", "capcutgw.cfd", "baseon.click", "pafasdigital.com",
  "mrdmn.com", "alpersadikan.sbs", "mmo01.com", "zubairnews.com", "virtualfelecia.net", "hastynurintan.io",
  "overwhelminghafizhul.io", "optimisticheart.org", "wamerangkul.com", "cabaininin.io", "teriguyaqin.biz", "underdosejkt.org",
  "fotokults.de", "trypodgrid.com", "lmkopknh.cfd", "maildoc.org", "depinpools.com", "haanhwedding.vn",
  "fatunaric.cfd", "nowfitpro.com", "mekikcek.network", "angiiidayyy.click", "scanupdates.info", "mailserv.info",
  "hieu0971927498.com", "kimgmail.com", "wavewon.com", "radiantliving.org", "longsieupham.online", "yagmursarkasla.sbs",
  "domail.info", "boxmailvn.space", "statisho.com", "mailb.info", "vietmail.xyz", "animalkingdo.com",
  "ncnmedia.net", "xmuss.com", "phanmemmaxcare.com", "futilesandilata.net", "plusfitpoint.com", "worldquickai.com",
  "parkers4events.com", "hsmultirental.com", "gaosuamedia.com", "taptopsmart.com", "macmail.info", "janjiabdurrohim.biz",
  "spotifyindo.com", "hulas.co", "inderbeck.se", "xusieure.com", "financialemail.org", "shinycash.email",
  "asadultcontent.com", "qazdo.com", "tapetadad.com", "freehostingyou.com", "quequeremos.com", "gamemaker.nl",
  "nfovpn.com", "hornyalisa.com", "hothearts.me", "princesscuties.com", "lovelytruth.com", "torrinrachildzz.com",
  "ericson.ml", "principalcreditos.es", "luisgill.xyz", "professionalseo.net", "578rf.com", "frepsalan.es",
  "suntano.com", "giveusaball.com", "buje.one", "digitalbonus.net", "usads.net", "infraoregon.us",
  "beautifuletters.com", "openarmsevents.com", "bekflipper.com", "secondreich.com", "4eol.com", "presentchurch.com",
  "vegamail.ga", "osumbet.us", "videogamecrush.com", "e-mail.americano.com", "allstarsearch.com", "pupuk.ml",
  "edugram.com", "berkenalanemos.com", "myfeedmeals.com", "darlorin.tk", "adminservicios.ceo", "kajeno.net",
  "alphabetaalpha.com", "mailinator.net", "mailinator.org", "mailinator.gq", "mailinator.ml", "mailinator.ga",
  "mailinator.cf", "mailinator2.com", "spamherelots.com", "binkmail.com", "thisisnotmyrealemail.com", "safetymail.info",
  "suremail.info", "spambob.com", "kurzepost.de", "lifebyfood.com", "objectmail.com", "spamcon.org",
  "sweetpotato.ml", "spamspot.com", "spamfree24.org", "metaping.com", "0815.su", "fixmail.cf",
  "nofi7.com", "nomail.cf", "noclickemail.com", "freemail.tur", "nospamfor.us", "intopwa.com",
  "maildig.com", "guerrilla.email", "guerrillamailblock.com", "sharklasers.com", "pokemail.net", "spam4.me",
  "grr.la", "10minutelink.com", "guerrillamail.org", "guerrillamail.net", "guerrillamail.de", "guerrillamail.com",
  "guerrillamail.biz", "guerrillamail.info", "guerrillamail.org", "shuffle.email", "armyspy.com", "cust.in",
  "cmail.club", "15qm-mail.red", "throwaway.email", "temp-mail.org", "temp-mail.ru", "temp-mail.io",
  "temp-mail.net", "temp-mail.com", "tempmailo.com", "tempmailo.org", "tempmailo.net", "tempail.com",
  "10minut.email", "10minutemail.com", "10minutemail.ru", "10minutemail.net", "10minutemail.org", "10minutemail.pro",
  "10minutemail.co.uk", "10minutemail.co.za", "10minute.email", "10minuteemail.com", "10minvm.email", "10minvm.net",
  "10minvm.org", "10min-mail.com", "temppost.de", "temp-inbox.com", "temp-inbox.net", "tempinbox.com",
  "temp-in.box", "templat.hu", "temp.email", "temporarily.de", "temporary.email", "temporaryemail.org",
  "throwaway.com", "throwawaymail.com", "trash-mail.com", "trash-mail.at", "trash-mail.de", "trash-mail.nl",
  "trashmail.me", "trashmail.net", "trashmail.org", "trashmail.ws", "trashya.com", "trashymail.com",
  "yopmail.fr", "yopmail.net", "yopmail.org", "yopmail.gq", "yopmail.ml", "yopmail.ga",
  "yopmail.cf", "yopmail.biz", "yopmail.info", "yopmail.com", "yopmail.2", "cool.fr.nf",
  "courripied.com", "guerrillamail.org", "guerrillamail.biz", "guerrillamail.info", "guerrillamail.net", "guerrillamail.de",
  "guerrillamail.com", "spam4.me", "sharklasers.com", "grr.la", "pokemail.net", "guerrillamailblock.com",
  "10minutemail.co.za", "10minutemail.co.uk", "10minutemail.com", "10minutemail.net", "10minutemail.org", "10minutemail.pro",
  "10minutemail.ru", "10minut.email", "10minute.email", "10minuteemail.com", "10minvm.email", "10minvm.net",
  "10minvm.org", "10min-mail.com", "10minute-mail.com", "guerrilla.click", "sharklaser.com", "gmailnator.com",
  "tempail.com", "guerrillamailde.com", "temp-mail.org", "temp-mail.ru", "temp-mail.io", "temp-mail.net",
  "temp-mail.com", "tempmailo.com", "tempmailo.org", "tempmailo.net", "10minutemail.ru", "10minutemail.net",
  "10minutemail.org", "10minutemail.pro", "10minutemail.co.uk", "10minutemail.co.za", "10minute.email", "10minuteemail.com",
  "10minvm.email", "10minvm.net", "10minvm.org", "10min-mail.com", "10min-mail.org", "10minutemail.me",
  "10minutemail.eu", "10minutemail.de", "10minutemail.ch", "10minutemail.at", "10minutemail.be", "10minutemail.cc",
  "10minutemail.cn", "10minutemail.fi", "10minutemail.fr", "10minutemail.it", "10minutemail.li", "10minutemail.lt",
  "10minutemail.lu", "10minutemail.me", "10minutemail.nl", "10minutemail.no", "10minutemail.pl", "10minutemail.pt",
  "10minutemail.ro", "10minutemail.se", "10minutemail.sg", "10minutemail.sk", "10minutemail.us", "10minutemail.ws",
  "20minutemail.com", "2prong.com", "30minutemail.com", "3d-painting.com", "33mail.com", "bbesll.com",
  "binkmail.com", "burnthespam.info", "burstmail.info", "cannoncrew.com", "careless-whisper.com", "casioblaka.com",
  "casio-loto.it", "cedarfalls.com", "cheatmail.de", "childsavetrust.org", "clevelandbay.it", "clrmail.com",
  "computersciencesquad.com", "cool.fr.nf", "courripied.com", "crapmail.org", "crazymailing.com", "cubiclink.com",
  "curryworld.de", "cust.in", "cutout.club", "d3p.dk", "dacha-24.ru", "dandikmail.com",
  "dayrep.com", "deadfake.cf", "deadaddress.com", "deadspam.com", "despam.it", "deyom.com",
  "dfgh.net"
]

/-! ### The service state and its operations -/

/-- The `defaultExternalSources` array of the class. -/
def defaultExternalSources : List String :=
  ["https://raw.githubusercontent.com/disposable-email-domains/disposable-email-domains/master/domains.txt",
   "https://raw.githubusercontent.com/7c/fakefilter/main/txt/data.txt",
   "https://raw.githubusercontent.com/wesbos/burner-email-providers/master/emails.txt"]

/-- The resolved configuration (`Required<TempDomainConfig>`); the local
storage path is irrelevant here because file contents are passed
explicitly. -/
structure TempDomainConfig where
  autoUpdate : Bool
  updateIntervalHours : Nat
  externalSources : List String
  customDomains : List String

/-- The mutable fields of `TempDomainService`: the domain set, the
`lastUpdate` timestamp (milliseconds, `none` = `null`) and whether an
update interval timer is registered (`updateTimer !== null`). -/
structure ServiceState where
  domains : Finset String
  lastUpdate : Option Nat
  updateTimer : Bool
deriving DecidableEq

/-- Field values at construction time (`new Set()`, `null`, `null`). -/
def emptyState : ServiceState :=
  ⟨∅, none, false⟩

/-- Translation of `loadBuiltInDomains`:
`this.domains = new Set([...this.builtInDomains, ...this.config.customDomains])`.
Note that the custom domains are inserted verbatim — neither lowercased nor
validated. -/
def loadBuiltInDomains (cfg : TempDomainConfig) (st : ServiceState) : ServiceState :=
  { st with domains := (builtInDomains ++ cfg.customDomains).toFinset }

/-- Outcome of `fs.readFile` + `JSON.parse` on the storage file:
the read/parse threw; or it produced an object without a `domains` array;
or it produced `{domains, lastUpdate}`. -/
inductive StorageRead : Type where
  | fileError : StorageRead
  | noDomainsField : StorageRead
  | domainsField (ds : List String) (lu : Option Nat) : StorageRead

/-- Translation of `loadFromStorage`: on a read/parse error fall back to
`loadBuiltInDomains`; if the parsed object has a `domains` array, replace
the set with it verbatim (no validation) and take its `lastUpdate`;
otherwise leave the state unchanged. -/
def loadFromStorage (cfg : TempDomainConfig) (st : ServiceState) :
    StorageRead → ServiceState
  | .fileError => loadBuiltInDomains cfg st
  | .noDomainsField => st
  | .domainsField ds lu => { st with domains := ds.toFinset, lastUpdate := lu }

/-- Translation of `parseDomainList`: split on newlines, trim each line,
drop empty lines and `#`/`//` comments, keep only lines passing
`isValidDomain`. -/
def parseDomainList (data : String) : List String :=
  (((splitLines data).map trimStr).filter
    (fun line => !(line == "") && !(startsWithStr line "#") && !(startsWithStr line "//"))).filter
    (fun line => isValidDomain line)

/-- Domains contributed by one external source: `axios.get` either throws
(`none`, caught and logged in the loop) or returns a body whose parsed
domains are added lowercased. -/
def fetchedDomains (fetch : String → Option String) (src : String) : List String :=
  match fetch src with
  | none => []
  | some data => (parseDomainList data).map toLowerStr

/-- Translation of `updateFromExternalSources`.  `fetch` gives the outcome
of `axios.get` per source URL.  The method copies the current set, adds the
lowercased custom domains, the built-in domains and every successfully
fetched source's parsed domains, and adopts the copy (stamping
`lastUpdate = now`) only if it is strictly larger than the current set. -/
def updateFromExternalSources (cfg : TempDomainConfig)
    (fetch : String → Option String) (now : Nat) (st : ServiceState) : ServiceState :=
  let base := st.domains ∪ (cfg.customDomains.map toLowerStr).toFinset ∪ builtInDomains.toFinset
  let newDomains := cfg.externalSources.foldl
    (fun acc src => acc ∪ (fetchedDomains fetch src).toFinset) base
  if st.domains.card < newDomains.card then
    { st with domains := newDomains, lastUpdate := some now }
  else st

/-- Translation of `forceUpdate`: it logs and awaits
`updateFromExternalSources`; every exception on that path is caught
internally, so the call always completes. -/
def forceUpdate (cfg : TempDomainConfig) (fetch : String → Option String)
    (now : Nat) (st : ServiceState) : ServiceState :=
  updateFromExternalSources cfg fetch now st

/-- Translation of `setupAutoUpdate`: any previous interval is cleared and a
single new one is registered, so afterwards exactly one timer exists. -/
def setupAutoUpdate (st : ServiceState) : ServiceState :=
  { st with updateTimer := true }

/-- Translation of `initialize` (invoked by the constructor): load from
storage, then update from external sources if the set is empty or
auto-update is on, then arm the timer if auto-update is on.  The
surrounding `try`/`catch` is dead in this model because every modelled
operation catches its own failures, as the source does. -/
def initService (cfg : TempDomainConfig) (storage : StorageRead)
    (fetch : String → Option String) (now : Nat) : ServiceState :=
  let st₁ := loadFromStorage cfg emptyState storage
  let st₂ := if st₁.domains.card = 0 || cfg.autoUpdate
             then updateFromExternalSources cfg fetch now st₁ else st₁
  if cfg.autoUpdate then setupAutoUpdate st₂ else st₂

/-- Translation of `isDomainTemporary`:
`this.domains.has(domain.toLowerCase())` — lowercases but does not trim. -/
def isDomainTemporary (st : ServiceState) (domain : String) : Bool :=
  decide (toLowerStr domain ∈ st.domains)

/-- Loop body of `addDomains`: lowercase and trim the candidate, and insert
it only if `isValidDomain` accepts the normalized form and it is not
already present. -/
def addDomainStep (acc : Finset String) (d : String) : Finset String :=
  let normalized := normalizeDomain d
  if isValidDomain normalized && !(decide (normalized ∈ acc))
  then insert normalized acc else acc

/-- Translation of `addDomains`: fold the per-candidate loop body over the
input list.  Invalid candidates are skipped silently. -/
def addDomains (st : ServiceState) (ds : List String) : ServiceState :=
  { st with domains := ds.foldl addDomainStep st.domains }

/-- Translation of `removeDomains`: erase each normalized candidate. -/
def removeDomains (st : ServiceState) (ds : List String) : ServiceState :=
  { st with domains := ds.foldl (fun acc d => acc.erase (normalizeDomain d)) st.domains }

/-- Contents handed to `importDomains`: a JSON file providing a `domains`
array (or a bare array), or a text file parsed line by line. -/
inductive ImportData : Type where
  | jsonDomains (ds : List String) : ImportData
  | text (data : String) : ImportData

/-- Translation of `importDomains`: both branches feed the extracted list
to `addDomains`. -/
def importDomains (st : ServiceState) : ImportData → ServiceState
  | .jsonDomains ds => addDomains st ds
  | .text data => addDomains st (parseDomainList data)

/-- Translation of `reset`: clear the set, then `loadBuiltInDomains`. -/
def reset (cfg : TempDomainConfig) (st : ServiceState) : ServiceState :=
  loadBuiltInDomains cfg { st with domains := ∅ }

/-- Translation of `destroy`: clear the interval and null the handle; no
other field is touched. -/
def destroy (st : ServiceState) : ServiceState :=
  { st with updateTimer := false }

/-! ### The `searchDomains` regular-expression model

`searchDomains(pattern)` runs `new RegExp(pattern, 'i')` on the raw input
and keeps the members for which `regex.test(domain)` holds.  We model the
`RegExp` constructor for a fragment of ECMAScript pattern syntax:
case-insensitive literal characters, `.`, identity and control escapes, the
class escapes `\d \D \w \W \s \S`, character classes `[...]`/`[^...]`
with ranges, grouping `(...)` and `(?:...)`, the quantifiers `*` `+` `?`
`{m}` `{m,}` `{m,n}` with optional lazy `?` (laziness does not change the
matched language), alternation `|`, and the anchors `^`/`$` at the edges of
a top-level alternative.  The parser is three-valued: `.ok` compiles the
pattern; `.error .thrown` models the constructor throwing a `SyntaxError`
(unmatched `(` or `)`, unterminated `[`, nothing to repeat, an
out-of-order class range or `{m,n}` bound, a trailing backslash);
`.error .outside` marks syntax outside the modelled fragment (lookaround,
backreferences — whose matching is not even a regular language — word
boundaries, `\u`/`\x` escapes, mid-sequence anchors), about which the
model makes no prediction at all.  `test` is unanchored: an alternative
without anchors may match any substring. -/

/-- Toggle the case of an ASCII letter. -/
def asciiSwapCase (c : Char) : Char :=
  if 65 ≤ c.toNat ∧ c.toNat ≤ 90 then Char.ofNat (c.toNat + 32)
  else if 97 ≤ c.toNat ∧ c.toNat ≤ 122 then Char.ofNat (c.toNat - 32)
  else c

/-- A case-insensitive literal character (the `i` flag). -/
def ciClass (c : Char) : Char → Bool :=
  fun x => asciiLowerChar x == asciiLowerChar c

/-- `.`: any character except a line terminator. -/
def anyNoNl (x : Char) : Bool :=
  !(x == '\n' || x == '\r')

/-- A class range `a-b` under the `i` flag: the character or its
case-toggled form lies in the range. -/
def classRange (a b x : Char) : Bool :=
  (a ≤ x && x ≤ b) || (a ≤ asciiSwapCase x && asciiSwapCase x ≤ b)

/-- Parse failure: `thrown` models the constructor raising a
`SyntaxError`; `outside` marks a pattern outside the modelled fragment. -/
inductive PErr : Type where
  | thrown : PErr
  | outside : PErr

/-- The class `\w`. -/
def wordChar (x : Char) : Bool :=
  ('a' ≤ x && x ≤ 'z') || ('A' ≤ x && x ≤ 'Z') || ('0' ≤ x && x ≤ '9') || x = '_'

/-- The class `\s` (ASCII fragment). -/
def jsSpace (x : Char) : Bool :=
  isJsWhitespace x

/-- Control escapes that denote a single character. -/
def escCharLit (e : Char) : Option Char :=
  if e = 'n' then some '\n'
  else if e = 'r' then some '\r'
  else if e = 't' then some '\t'
  else if e = 'f' then some '\x0c'
  else if e = 'v' then some '\x0b'
  else none

/-- The class escapes `\d \D \w \W \s \S`. -/
def escClass (e : Char) : Option (Char → Bool) :=
  if e = 'd' then some (fun x => '0' ≤ x && x ≤ '9')
  else if e = 'D' then some (fun x => !('0' ≤ x && x ≤ '9'))
  else if e = 'w' then some wordChar
  else if e = 'W' then some (fun x => !(wordChar x))
  else if e = 's' then some jsSpace
  else if e = 'S' then some (fun x => !(jsSpace x))
  else none

/-- Parse the items of a character class up to the closing `]`.  An
unterminated class or an out-of-order range throws; ranges with escaped
endpoints and in-class escapes beyond the supported ones are outside the
fragment. -/
def parseClassItems : List Char → Except PErr ((Char → Bool) × List Char)
  | [] => .error .thrown
  | ']' :: rest => .ok (fun _ => false, rest)
  | '\\' :: [] => .error .thrown
  | '\\' :: e :: rest =>
      if e.isAlphanum then
        match escClass e with
        | some p =>
            (match parseClassItems rest with
             | .error er => .error er
             | .ok (q, rest') => .ok (fun x => p x || q x, rest'))
        | none =>
            match escCharLit e with
            | some c =>
                (match parseClassItems rest with
                 | .error er => .error er
                 | .ok (q, rest') => .ok (fun x => x = c || q x, rest'))
            | none => .error .outside
      else
        match parseClassItems rest with
        | .error er => .error er
        | .ok (q, rest') => .ok (fun x => x = e || q x, rest')
  | a :: '-' :: ']' :: rest => .ok (fun x => ciClass a x || x = '-', rest)
  | _ :: '-' :: '\\' :: _ => .error .outside
  | a :: '-' :: b :: rest =>
      if b < a then .error .thrown
      else
        match parseClassItems rest with
        | .error er => .error er
        | .ok (q, rest') => .ok (fun x => classRange a b x || q x, rest')
  | a :: rest =>
      match parseClassItems rest with
      | .error er => .error er
      | .ok (q, rest') => .ok (fun x => ciClass a x || q x, rest')

/-- Parse one atom other than a group.  A dangling quantifier and a
trailing backslash throw (nothing to repeat / pattern ends in escape); a
mid-sequence `^` and unsupported escapes are outside the fragment. -/
def parseAtomSimple : List Char → Except PErr (RE × List Char)
  | [] => .error .thrown
  | '[' :: '^' :: rest =>
      (match parseClassItems rest with
       | .error er => .error er
       | .ok (p, rest') => .ok (.cls (fun x => !(p x)), rest'))
  | '[' :: rest =>
      (match parseClassItems rest with
       | .error er => .error er
       | .ok (p, rest') => .ok (.cls p, rest'))
  | '\\' :: [] => .error .thrown
  | '\\' :: e :: rest =>
      if e.isAlphanum then
        match escClass e with
        | some p => .ok (.cls p, rest)
        | none =>
            match escCharLit e with
            | some c => .ok (.cls (fun x => x = c), rest)
            | none => .error .outside
      else .ok (.cls (fun x => x = e), rest)
  | '.' :: rest => .ok (.cls anyNoNl, rest)
  | '*' :: _ => .error .thrown
  | '+' :: _ => .error .thrown
  | '?' :: _ => .error .thrown
  | '^' :: _ => .error .outside
  | c :: rest => .ok (.cls (ciClass c), rest)

/-- The number denoted by a run of decimal digits. -/
def digitsToNat (ds : List Char) : Nat :=
  ds.foldl (fun n c => 10 * n + (c.toNat - 48)) 0

/-- Split a leading run of decimal digits from the input. -/
def takeDigits : List Char → List Char × List Char
  | [] => ([], [])
  | c :: cs =>
      if '0' ≤ c && c ≤ '9' then
        let r := takeDigits cs
        (c :: r.1, r.2)
      else ([], c :: cs)

/-- `r` repeated exactly `n` times. -/
def powRE (r : RE) : Nat → RE
  | 0 => .eps
  | n + 1 => .cat r (powRE r n)

/-- `r` repeated at most `n` times. -/
def optPowRE (r : RE) : Nat → RE
  | 0 => .eps
  | n + 1 => .cat (.alt r .eps) (optPowRE r n)

/-- Parse a braces quantifier `{m}`, `{m,}` or `{m,n}` following the atom
`r`.  Braces that do not form a quantifier are left in place and read as a
literal `{` (Annex B web compatibility, as `new RegExp` accepts them);
`{m,n}` with `n < m` throws. -/
def parseBraces (r : RE) (cs : List Char) : Except PErr (Option (RE × List Char)) :=
  match takeDigits cs with
  | ([], _) => .ok none
  | (ds, rest) =>
      match rest with
      | '}' :: rest' => .ok (some (powRE r (digitsToNat ds), rest'))
      | ',' :: '}' :: rest' =>
          .ok (some (.cat (powRE r (digitsToNat ds)) (.star r), rest'))
      | ',' :: rest' =>
          (match takeDigits rest' with
           | ([], _) => .ok none
           | (ds₂, rest₂) =>
               match rest₂ with
               | '}' :: rest₃ =>
                   if digitsToNat ds₂ < digitsToNat ds then .error .thrown
                   else .ok (some (.cat (powRE r (digitsToNat ds))
                     (optPowRE r (digitsToNat ds₂ - digitsToNat ds)), rest₃))
               | _ => .ok none)
      | _ => .ok none

/-- Consume an optional lazy `?` marker after a quantifier; laziness does
not change the set of matched strings, so the expression is unchanged. -/
def lazySkip (r : RE) : List Char → RE × List Char
  | '?' :: rest => (r, rest)
  | rest => (r, rest)

/-- Apply a postfix quantifier (`*` `+` `?` `{...}`) to the atom just
parsed, if one follows. -/
def parseQuantSuffix (r : RE) : List Char → Except PErr (RE × List Char)
  | '*' :: rest => .ok (lazySkip (.star r) rest)
  | '+' :: rest => .ok (lazySkip (RE.plus r) rest)
  | '?' :: rest => .ok (lazySkip (.alt r .eps) rest)
  | '{' :: rest =>
      (match parseBraces r rest with
       | .error er => .error er
       | .ok none => .ok (r, '{' :: rest)
       | .ok (some (r', rest')) => .ok (lazySkip r' rest'))
  | rest => .ok (r, rest)

/-- Core pattern parser, fuelled so that it is structurally recursive and
computes by kernel reduction.  In sequence mode (`seqMode = true`) it
parses a concatenation of quantified atoms and groups, stopping at `|`,
`)`, `$` or the end; otherwise it parses an anchor-free alternation, as
used inside groups.  A group without its `)` throws (unterminated group);
a lookaround or named group `(?...` other than `(?:` is outside the
fragment. -/
def parseCore : Nat → Bool → List Char → Except PErr (RE × List Char)
  | 0, _, _ => .error .outside
  | fuel + 1, true, cs =>
      match cs with
      | [] => .ok (.eps, [])
      | ')' :: _ => .ok (.eps, cs)
      | '|' :: _ => .ok (.eps, cs)
      | '$' :: _ => .ok (.eps, cs)
      | '(' :: '?' :: ':' :: rest =>
          (match parseCore fuel false rest with
           | .error er => .error er
           | .ok (r, rest') =>
               match rest' with
               | ')' :: rest'' =>
                   (match parseQuantSuffix r rest'' with
                    | .error er => .error er
                    | .ok (r', rest₃) =>
                        match parseCore fuel true rest₃ with
                        | .error er => .error er
                        | .ok (r₂, rest₄) => .ok (.cat r' r₂, rest₄))
               | '$' :: _ => .error .outside
               | _ => .error .thrown)
      | '(' :: '?' :: _ => .error .outside
      | '(' :: rest =>
          (match parseCore fuel false rest with
           | .error er => .error er
           | .ok (r, rest') =>
               match rest' with
               | ')' :: rest'' =>
                   (match parseQuantSuffix r rest'' with
                    | .error er => .error er
                    | .ok (r', rest₃) =>
                        match parseCore fuel true rest₃ with
                        | .error er => .error er
                        | .ok (r₂, rest₄) => .ok (.cat r' r₂, rest₄))
               | '$' :: _ => .error .outside
               | _ => .error .thrown)
      | _ =>
          match parseAtomSimple cs with
          | .error er => .error er
          | .ok (r, rest) =>
              match parseQuantSuffix r rest with
              | .error er => .error er
              | .ok (r', rest') =>
                  match parseCore fuel true rest' with
                  | .error er => .error er
                  | .ok (r₂, rest'') => .ok (.cat r' r₂, rest'')
  | fuel + 1, false, cs =>
      match parseCore fuel true cs with
      | .error er => .error er
      | .ok (r, rest) =>
          match rest with
          | '|' :: rest' =>
              (match parseCore fuel false rest' with
               | .error er => .error er
               | .ok (r₂, rest'') => .ok (.alt r r₂, rest''))
          | _ => .ok (r, rest)

/-- Parse the top-level alternation.  Each top-level alternative may carry
its own leading `^` and trailing `$` anchor (as in the grammar, an anchor
binds to one alternative); a stray `)` after an alternative throws
(unmatched parenthesis). -/
def parseTop : Nat → List Char → Except PErr (List (Bool × RE × Bool))
  | 0, _ => .error .outside
  | fuel + 1, cs =>
      let la : Bool := match cs with
                       | '^' :: _ => true
                       | _ => false
      let cs₁ : List Char := match cs with
                             | '^' :: rest => rest
                             | _ => cs
      match parseCore (3 * cs₁.length + 3) true cs₁ with
      | .error er => .error er
      | .ok (r, rest) =>
          match rest with
          | [] => .ok [(la, r, false)]
          | '$' :: [] => .ok [(la, r, true)]
          | '$' :: '|' :: rest' =>
              (match parseTop fuel rest' with
               | .error er => .error er
               | .ok alts => .ok ((la, r, true) :: alts))
          | '$' :: _ => .error .outside
          | '|' :: rest' =>
              (match parseTop fuel rest' with
               | .error er => .error er
               | .ok alts => .ok ((la, r, false) :: alts))
          | ')' :: _ => .error .thrown
          | _ => .error .outside

/-- Model of `new RegExp(pattern, 'i')`: `.error .thrown` is the
constructor raising a `SyntaxError`, `.error .outside` a pattern the model
does not cover, `.ok` the compiled pattern as a list of anchored
alternatives. -/
def jsRegexParse (p : String) : Except PErr (List (Bool × RE × Bool)) :=
  parseTop (p.data.length + 1) p.data

/-- Does `r` match some prefix of the input? -/
def searchFrom (r : RE) : List Char → Bool
  | [] => r.nullable
  | c :: cs => r.nullable || searchFrom (RE.deriv c r) cs

/-- Does `r` match some suffix of the input? -/
def suffixMatch (r : RE) : List Char → Bool
  | [] => r.nullable
  | s@(_ :: cs') => r.matchRE s || suffixMatch r cs'

/-- Does `r` match some substring of the input? -/
def reTest (r : RE) : List Char → Bool
  | [] => r.nullable
  | s@(_ :: cs) => searchFrom r s || reTest r cs

/-- Model of `RegExp.prototype.test` for one compiled alternative: the
anchors decide whether the body must match the whole input, a prefix, a
suffix, or any substring. -/
def altTest : Bool × RE × Bool → List Char → Bool
  | (true, r, true), cs => r.matchRE cs
  | (true, r, false), cs => searchFrom r cs
  | (false, r, true), cs => suffixMatch r cs
  | (false, r, false), cs => reTest r cs

/-- Model of `RegExp.prototype.test`: some alternative matches. -/
def jsTest (c : List (Bool × RE × Bool)) (cs : List Char) : Bool :=
  c.any (fun a => altTest a cs)

/-- Translation of `searchDomains`: build the regex from the raw input and
filter the set; the method assigns no field, so the state component of the
result is unchanged.  A `SyntaxError` of the constructor becomes the
thrown `.error ()`; a pattern outside the modelled fragment yields `none`
(the model makes no prediction there).  The JavaScript method returns the
matches in insertion order; order is abstracted away by returning the
`Finset` of matches. -/
def searchDomainsRun (st : ServiceState) (pattern : String) :
    Option (Except Unit (Finset String) × ServiceState) :=
  match jsRegexParse pattern with
  | .error .thrown => some (.error (), st)
  | .error .outside => none
  | .ok c => some (.ok (st.domains.filter (fun d => jsTest c d.data = true)), st)

/-! ### Event model for the auto-update timer

`setupAutoUpdate` registers `setInterval(() => {
this.updateFromExternalSources().catch(...) }, intervalMs)`.  The callback
body invokes the asynchronous refresh unconditionally — the class has no
busy flag, and an invocation is in flight from the call until its promise
settles.  `SchedState` tracks how many refresh invocations are in flight
while the timer is active; `tick` is the timer firing (which starts a
refresh whenever a timer is registered), `complete` is one in-flight
refresh settling. -/

structure SchedState where
  timerActive : Bool
  inFlight : Nat
deriving DecidableEq

inductive SchedEvent : Type where
  | tick : SchedEvent
  | complete : SchedEvent
deriving DecidableEq

/-- One scheduler event: the interval callback starts a refresh regardless
of how many are already running (there is no test of a busy flag in
`setupAutoUpdate`). -/
def schedStep (s : SchedState) : SchedEvent → SchedState
  | .tick => if s.timerActive then { s with inFlight := s.inFlight + 1 } else s
  | .complete => { s with inFlight := s.inFlight - 1 }

/-- Run a sequence of scheduler events. -/
def schedRun (s : SchedState) (evs : List SchedEvent) : SchedState :=
  evs.foldl schedStep s

/-! ### Concrete configurations and states used by the scenario claims -/

/-- Configuration of concrete scenario 1: `autoUpdate=false`,
`customDomains=["x.com"]`, other options left at their defaults. -/
def cfgScenario1 : TempDomainConfig :=
  ⟨false, 24, defaultExternalSources, ["x.com"]⟩

/-- Scenario 1 state: fresh service, no persisted file, no fetch
performed. -/
def stScenario1 : ServiceState :=
  initService cfgScenario1 .fileError (fun _ => none) 0

/-- A configuration whose custom domains contain a syntactically invalid
string. -/
def cfgInvalidCustom : TempDomainConfig :=
  ⟨false, 24, defaultExternalSources, ["not a domain"]⟩

/-- The state reached by constructing the service with
`cfgInvalidCustom` and no persisted file. -/
def stInvalidCustom : ServiceState :=
  initService cfgInvalidCustom .fileError (fun _ => none) 0

/-- The three-member collection of concrete scenario 4. -/
def stScenario4 : ServiceState :=
  ⟨({"10minutemail.com", "gmail.com", "temp-mail.org"} : Finset String), none, false⟩

/-- A one-member collection used to exhibit the missing trim in
`isDomainTemporary`. -/
def stXcom : ServiceState :=
  ⟨({"x.com"} : Finset String), none, false⟩

/-- The compiled form of the pattern `"temp"` (defined so that witnesses
can name the parser output). -/
def cTemp : List (Bool × RE × Bool) :=
  ((jsRegexParse "temp").toOption).getD []

/-- Two-source configuration of concrete scenario 3. -/
def cfgTwoSources : TempDomainConfig :=
  ⟨false, 24, ["https://a.example/list.txt", "https://b.example/list.txt"], []⟩

/-- Fetch outcome of scenario 3: the first source fails (HTTP 500, caught),
the second returns a parsable body. -/
def fetchScenario3 : String → Option String :=
  fun src => if src = "https://b.example/list.txt"
             then some "tempmail.example\n# comment\nnot a domain\nsecond.example\n"
             else none

/-! ### Correctness of the derivative matcher -/

theorem rmatch_cat_iff {r₁ r₂ : RE} {x : List Char} :
    RMatch (.cat r₁ r₂) x ↔ ∃ s₁ s₂, x = s₁ ++ s₂ ∧ RMatch r₁ s₁ ∧ RMatch r₂ s₂ := by
  constructor
  · intro h
    cases h with
    | catm h₁ h₂ => exact ⟨_, _, rfl, h₁, h₂⟩
  · rintro ⟨s₁, s₂, rfl, h₁, h₂⟩
    exact .catm h₁ h₂

theorem rmatch_alt_iff {r₁ r₂ : RE} {x : List Char} :
    RMatch (.alt r₁ r₂) x ↔ RMatch r₁ x ∨ RMatch r₂ x := by
  constructor
  · intro h
    cases h with
    | altL h => exact Or.inl h
    | altR h => exact Or.inr h
  · rintro (h | h)
    · exact .altL h
    · exact .altR h

theorem nullable_iff : ∀ r : RE, r.nullable = true ↔ RMatch r [] := by
  intro r
  induction r with
  | emp => exact ⟨fun h => absurd h (by decide), fun h => by cases h⟩
  | eps => exact ⟨fun _ => .eps, fun _ => rfl⟩
  | cls p => exact ⟨fun h => absurd h Bool.false_ne_true, fun h => by cases h⟩
  | cat r₁ r₂ ih₁ ih₂ =>
      constructor
      · intro h
        rcases Bool.and_eq_true _ _ |>.mp h with ⟨h₁, h₂⟩
        exact RMatch.catm (ih₁.mp h₁) (ih₂.mp h₂)
      · intro h
        rcases rmatch_cat_iff.mp h with ⟨s₁, s₂, heq, h₁, h₂⟩
        rcases List.append_eq_nil.mp heq.symm with ⟨e₁, e₂⟩
        subst e₁; subst e₂
        exact Bool.and_eq_true _ _ |>.mpr ⟨ih₁.mpr h₁, ih₂.mpr h₂⟩
  | alt r₁ r₂ ih₁ ih₂ =>
      constructor
      · intro h
        rcases Bool.or_eq_true _ _ |>.mp h with h | h
        · exact .altL (ih₁.mp h)
        · exact .altR (ih₂.mp h)
      · intro h
        rcases rmatch_alt_iff.mp h with h | h
        · exact Bool.or_eq_true _ _ |>.mpr (Or.inl (ih₁.mpr h))
        · exact Bool.or_eq_true _ _ |>.mpr (Or.inr (ih₂.mpr h))
  | star r ih =>
      exact ⟨fun _ => .starNil, fun _ => rfl⟩

theorem deriv_sound {c : Char} :
    ∀ {r : RE} {s : List Char}, RMatch (RE.deriv c r) s → RMatch r (c :: s) := by
  intro r
  induction r with
  | emp => intro s h; cases h
  | eps => intro s h; cases h
  | cls p =>
      intro s h
      by_cases hp : p c
      · rw [RE.deriv, if_pos hp] at h
        cases h
        exact RMatch.cls hp
      · rw [RE.deriv, if_neg hp] at h
        cases h
  | cat r₁ r₂ ih₁ ih₂ =>
      intro s h
      by_cases hn : r₁.nullable
      · rw [RE.deriv, if_pos hn] at h
        cases h with
        | altL h =>
            cases h with
            | catm h₁ h₂ =>
                have := RMatch.catm (ih₁ h₁) h₂
                simpa using this
        | altR h =>
            have h0 : RMatch r₁ [] := (nullable_iff r₁).mp hn
            have := RMatch.catm h0 (ih₂ h)
            simpa using this
      · rw [RE.deriv, if_neg hn] at h
        cases h with
        | catm h₁ h₂ =>
            have := RMatch.catm (ih₁ h₁) h₂
            simpa using this
  | alt r₁ r₂ ih₁ ih₂ =>
      intro s h
      cases h with
      | altL h => exact .altL (ih₁ h)
      | altR h => exact .altR (ih₂ h)
  | star r ih =>
      intro s h
      rw [RE.deriv] at h
      cases h with
      | catm h₁ h₂ =>
          have := RMatch.starCons (ih h₁) h₂
          simpa using this

theorem deriv_complete :
    ∀ {r : RE} {x : List Char}, RMatch r x →
      ∀ {c : Char} {s : List Char}, x = c :: s → RMatch (RE.deriv c r) s := by
  intro r x h
  induction h with
  | eps => intro c s hcs; cases hcs
  | cls hp =>
      intro c s hcs
      rename_i p c'
      cases hcs
      rw [RE.deriv, if_pos hp]
      exact .eps
  | catm h₁ h₂ ih₁ ih₂ =>
      rename_i r₁ r₂ s₁ s₂
      intro c s hcs
      cases s₁ with
      | nil =>
          simp only [List.nil_append] at hcs
          have hn : r₁.nullable = true := (nullable_iff r₁).mpr h₁
          rw [RE.deriv, if_pos hn]
          exact .altR (ih₂ hcs)
      | cons a s₁' =>
          simp only [List.cons_append] at hcs
          cases hcs
          have hd₁ : RMatch (RE.deriv c r₁) s₁' := ih₁ rfl
          by_cases hn : r₁.nullable
          · rw [RE.deriv, if_pos hn]
            exact .altL (.catm hd₁ h₂)
          · rw [RE.deriv, if_neg hn]
            exact .catm hd₁ h₂
  | altL h ih =>
      intro c s hcs
      rw [RE.deriv]
      exact .altL (ih hcs)
  | altR h ih =>
      intro c s hcs
      rw [RE.deriv]
      exact .altR (ih hcs)
  | starNil => intro c s hcs; cases hcs
  | starCons h₁ h₂ ih₁ ih₂ =>
      rename_i r s₁ s₂
      intro c s hcs
      cases s₁ with
      | nil =>
          simp only [List.nil_append] at hcs
          exact ih₂ hcs
      | cons a s₁' =>
          simp only [List.cons_append] at hcs
          cases hcs
          rw [RE.deriv]
          exact .catm (ih₁ rfl) h₂

theorem matchRE_iff : ∀ (cs : List Char) (r : RE), r.matchRE cs = true ↔ RMatch r cs := by
  intro cs
  induction cs with
  | nil => intro r; exact nullable_iff r
  | cons c cs ih =>
      intro r
      show (RE.deriv c r).matchRE cs = true ↔ RMatch r (c :: cs)
      rw [ih (RE.deriv c r)]
      exact ⟨deriv_sound, fun h => deriv_complete h rfl⟩


theorem matchRE_iff_rmatch {r : RE} {s : String} :
    r.matchRE s.data = true ↔ RMatch r s.data :=
  matchRE_iff s.data r

/-! ### Correctness of the unanchored search -/

theorem foldl_union_subset (f : String → Finset String) :
    ∀ (l : List String) (acc : Finset String),
      acc ⊆ l.foldl (fun a s => a ∪ f s) acc := by
  intro l
  induction l with
  | nil => intro acc; exact Finset.Subset.refl _
  | cons x l ih =>
      intro acc
      exact Finset.subset_union_left.trans (ih (acc ∪ f x))

theorem subset_foldl_union (f : String → Finset String) :
    ∀ (l : List String) (acc : Finset String) (src : String), src ∈ l →
      f src ⊆ l.foldl (fun a s => a ∪ f s) acc := by
  intro l
  induction l with
  | nil => intro acc src h; cases h
  | cons x l ih =>
      intro acc src h
      rcases List.mem_cons.mp h with rfl | h
      · exact Finset.subset_union_right.trans (foldl_union_subset f l (acc ∪ f src))
      · exact ih (acc ∪ f x) src h

theorem update_superset (cfg : TempDomainConfig) (fetch : String → Option String)
    (now : Nat) (st : ServiceState) :
    st.domains ⊆ (updateFromExternalSources cfg fetch now st).domains := by
  unfold updateFromExternalSources
  set base := st.domains ∪ (cfg.customDomains.map toLowerStr).toFinset ∪ builtInDomains.toFinset with hbase
  set newDomains := cfg.externalSources.foldl
    (fun acc src => acc ∪ (fetchedDomains fetch src).toFinset) base with hnew
  have hsub : st.domains ⊆ newDomains := by
    have h₁ : st.domains ⊆ base :=
      Finset.subset_union_left.trans Finset.subset_union_left
    exact h₁.trans (foldl_union_subset _ _ _)
  by_cases h : st.domains.card < newDomains.card
  · rw [if_pos h]
    exact hsub
  · rw [if_neg h]

theorem update_mem_of_fetched (cfg : TempDomainConfig) (fetch : String → Option String)
    (now : Nat) (st : ServiceState) {src : String} {data : String}
    (hsrc : src ∈ cfg.externalSources) (hdata : fetch src = some data) :
    ∀ d ∈ parseDomainList data,
      toLowerStr d ∈ (updateFromExternalSources cfg fetch now st).domains := by
  intro d hd
  unfold updateFromExternalSources
  set base := st.domains ∪ (cfg.customDomains.map toLowerStr).toFinset ∪ builtInDomains.toFinset with hbase
  set newDomains := cfg.externalSources.foldl
    (fun acc src => acc ∪ (fetchedDomains fetch src).toFinset) base with hnew
  have hmem : toLowerStr d ∈ newDomains := by
    have h₁ : toLowerStr d ∈ (fetchedDomains fetch src).toFinset := by
      rw [List.mem_toFinset]
      unfold fetchedDomains
      rw [hdata]
      exact List.mem_map_of_mem toLowerStr hd
    exact subset_foldl_union _ _ base src hsrc h₁
  by_cases h : st.domains.card < newDomains.card
  · rw [if_pos h]
    exact hmem
  · rw [if_neg h]
    have hsub : st.domains ⊆ newDomains := by
      have h₁ : st.domains ⊆ base :=
        Finset.subset_union_left.trans Finset.subset_union_left
      exact h₁.trans (foldl_union_subset _ _ _)
    have hcard : newDomains.card ≤ st.domains.card := Nat.le_of_not_lt h
    have heqd : st.domains = newDomains := Finset.eq_of_subset_of_card_le hsub hcard
    show toLowerStr d ∈ st.domains
    rw [heqd]
    exact hmem

theorem addDomains_fold_mem :
    ∀ (cs : List String) (acc : Finset String) (d : String),
      d ∈ cs.foldl addDomainStep acc → d ∈ acc ∨ isValidDomain d = true := by
  intro cs
  induction cs with
  | nil => intro acc d h; exact Or.inl h
  | cons c cs ih =>
      intro acc d h
      rcases ih (addDomainStep acc c) d h with h' | h'
      · unfold addDomainStep at h'
        by_cases hc : isValidDomain (normalizeDomain c) && !(decide (normalizeDomain c ∈ acc))
        · rw [if_pos hc] at h'
          rcases Finset.mem_insert.mp h' with rfl | h''
          · exact Or.inr (Bool.and_eq_true _ _ |>.mp hc).1
          · exact Or.inl h''
        · rw [if_neg hc] at h'
          exact Or.inl h'
      · exact Or.inr h'

theorem toNat_ofNat_valid {n : Nat} (h : n.isValidChar) : (Char.ofNat n).toNat = n := by
  rw [Char.ofNat, dif_pos h]
  rfl

theorem asciiLowerChar_idem (c : Char) :
    asciiLowerChar (asciiLowerChar c) = asciiLowerChar c := by
  unfold asciiLowerChar
  by_cases h : 65 ≤ c.toNat ∧ c.toNat ≤ 90
  · rw [if_pos h]
    have hv : (c.toNat + 32).isValidChar := Or.inl (by omega)
    have hn : ¬(65 ≤ (Char.ofNat (c.toNat + 32)).toNat ∧
        (Char.ofNat (c.toNat + 32)).toNat ≤ 90) := by
      rw [toNat_ofNat_valid hv]
      omega
    rw [if_neg hn]
  · rw [if_neg h, if_neg h]

theorem toLowerStr_idem (s : String) : toLowerStr (toLowerStr s) = toLowerStr s := by
  show (⟨((s.data.map asciiLowerChar) : List Char).map asciiLowerChar⟩ : String) =
    ⟨s.data.map asciiLowerChar⟩
  congr 1
  rw [List.map_map]
  exact List.map_congr_left (fun a _ => asciiLowerChar_idem a)

theorem builtInDomains_ne_nil : builtInDomains ≠ [] := by
  unfold builtInDomains
  exact List.cons_ne_nil _ _

theorem builtIn_append_card_ne_zero (l : List String) :
    ¬((builtInDomains ++ l).toFinset.card = 0) := by
  intro h0
  have h1 : (builtInDomains ++ l).toFinset = ∅ := Finset.card_eq_zero.mp h0
  have h2 : builtInDomains ++ l = [] := by
    rwa [List.toFinset_eq_empty_iff] at h1
  exact builtInDomains_ne_nil (List.append_eq_nil.mp h2).1

theorem initService_fileError_noauto (cfg : TempDomainConfig)
    (fetch : String → Option String) (now : Nat) (h : cfg.autoUpdate = false) :
    initService cfg .fileError fetch now =
      ⟨(builtInDomains ++ cfg.customDomains).toFinset, none, false⟩ := by
  unfold initService loadFromStorage loadBuiltInDomains emptyState
  simp [h, builtIn_append_card_ne_zero cfg.customDomains]
  intro hemp
  exfalso
  have hb : builtInDomains.toFinset = ∅ := (Finset.union_eq_empty.mp hemp).1
  exact builtInDomains_ne_nil ((List.toFinset_eq_empty_iff builtInDomains).mp hb)

theorem stScenario1_eq :
    stScenario1 = ⟨(builtInDomains ++ ["x.com"]).toFinset, none, false⟩ :=
  initService_fileError_noauto cfgScenario1 (fun _ => none) 0 rfl

theorem stInvalidCustom_eq :
    stInvalidCustom = ⟨(builtInDomains ++ ["not a domain"]).toFinset, none, false⟩ :=
  initService_fileError_noauto cfgInvalidCustom (fun _ => none) 0 rfl

/-! ### The claims -/

set_option maxRecDepth 40000 in
/-- C1 counterexample: the validity invariant fails on reachable states.
Constructing the service with `customDomains=["not a domain"]` and no
persisted file puts the invalid string `"not a domain"` into the
collection (custom domains are not validated), and even the built-in list
itself contains `"yopmail.2"`, which fails `isValidDomain` (its final
label is a digit). -/
theorem c1_counterexample :
    ("not a domain" : String) ∈ stInvalidCustom.domains ∧
    isValidDomain "not a domain" = false ∧
    ("yopmail.2" : String) ∈ stInvalidCustom.domains ∧
    isValidDomain "yopmail.2" = false := by
  rw [stInvalidCustom_eq]
  refine ⟨?_, by decide, ?_, by decide⟩
  · show ("not a domain" : String) ∈ (builtInDomains ++ ["not a domain"]).toFinset
    rw [List.mem_toFinset]
    decide
  · show ("yopmail.2" : String) ∈ (builtInDomains ++ ["not a domain"]).toFinset
    rw [List.mem_toFinset]
    decide

/-- C1 (amended): `addDomains` accepts only candidates whose normalized
form passes `isValidDomain` — every domain present after `addDomains` was
either already present or is valid — but the global validity invariant
fails because `customDomains` and the persisted file contents enter the
collection unvalidated (and one built-in entry is itself invalid). -/
theorem c1_add_only_valid :
    ∀ (st : ServiceState) (ds : List String) (d : String),
      d ∈ (addDomains st ds).domains → d ∈ st.domains ∨ isValidDomain d = true := by
  intro st ds d h
  exact addDomains_fold_mem ds st.domains d h

/-- Witness for C1 at a concrete state and input. -/
theorem c1_add_only_valid_witness :
    ("x.com" : String) ∈ stXcom.domains ∨ isValidDomain "x.com" = true :=
  c1_add_only_valid stXcom ["foo.org"] "x.com" (by decide)

/-- C2: `isValidDomain` accepts a string iff it is in the language of the
transcribed regular expression (case-insensitively, via the declarative
matching relation `RMatch`) and its length is at most 253; every line kept
by the remote/import line parser passes the same predicate; and a
candidate whose normalized form fails the predicate is silently dropped by
`addDomains` — the call completes and the state is unchanged. -/
theorem c2_validation_rule :
    (∀ s : String, isValidDomain s = true ↔ RMatch domainRE s.data ∧ s.length ≤ 253) ∧
    (∀ (data line : String), line ∈ parseDomainList data → isValidDomain line = true) ∧
    (∀ (st : ServiceState) (c : String),
      isValidDomain (normalizeDomain c) = false → addDomains st [c] = st) := by
  refine ⟨?_, ?_, ?_⟩
  · intro s
    unfold isValidDomain
    rw [Bool.and_eq_true, decide_eq_true_eq, matchRE_iff s.data domainRE]
  · intro data line h
    exact (List.mem_filter.mp h).2
  · intro st c h
    have hstep : addDomainStep st.domains c = st.domains := by
      simp [addDomainStep, h]
    show { st with domains := List.foldl addDomainStep st.domains [c] } = st
    rw [List.foldl_cons, hstep, List.foldl_nil]

/-- Witness for C2 at concrete inputs. -/
theorem c2_validation_rule_witness :
    (RMatch domainRE "mailsac.com".data ∧ "mailsac.com".length ≤ 253) ∧
    addDomains stXcom ["not a domain"] = stXcom :=
  ⟨(c2_validation_rule.1 "mailsac.com").mp (by decide),
   c2_validation_rule.2.2 stXcom "not a domain" (by decide)⟩

/-- C3: one refresh cycle (`forceUpdate`, which is also what the scheduled
timer runs) never shrinks the collection: whatever the fetch outcomes, the
old collection is contained in the new one and the size does not
decrease. -/
theorem c3_merge_never_shrinks :
    ∀ (cfg : TempDomainConfig) (fetch : String → Option String)
      (now : Nat) (st : ServiceState),
      st.domains ⊆ (forceUpdate cfg fetch now st).domains ∧
      st.domains.card ≤ (forceUpdate cfg fetch now st).domains.card := by
  intro cfg fetch now st
  have h := update_superset cfg fetch now st
  exact ⟨h, Finset.card_le_card h⟩

/-- C4: with at least two sources, some of which fail (`fetch = none`
models a caught network error / non-2xx / timeout), `forceUpdate` still
completes (it is a total function: each per-source failure is caught
inside the loop) and every valid domain parsed from any succeeding source
is in the collection afterwards. -/
theorem c4_failing_source_tolerated :
    ∀ (cfg : TempDomainConfig) (fetch : String → Option String)
      (now : Nat) (st : ServiceState) (src data : String),
      2 ≤ cfg.externalSources.length →
      (∃ bad ∈ cfg.externalSources, fetch bad = none) →
      src ∈ cfg.externalSources → fetch src = some data →
      ∀ d ∈ parseDomainList data,
        toLowerStr d ∈ (forceUpdate cfg fetch now st).domains := by
  intro cfg fetch now st src data _ _ hsrc hdata d hd
  exact update_mem_of_fetched cfg fetch now st hsrc hdata d hd

section
attribute [local irreducible] builtInDomains
set_option maxRecDepth 40000 in
/-- Witness for C4: two sources, the first failing with HTTP 500, the
second returning a list containing `tempmail.example`. -/
theorem c4_failing_source_tolerated_witness :
    toLowerStr "tempmail.example" ∈
      (forceUpdate cfgTwoSources fetchScenario3 0 emptyState).domains :=
  c4_failing_source_tolerated cfgTwoSources fetchScenario3 0 emptyState
    "https://b.example/list.txt"
    "tempmail.example\n# comment\nnot a domain\nsecond.example\n"
    (by decide) ⟨"https://a.example/list.txt", by decide, rfl⟩ (by decide) rfl
    "tempmail.example" (by decide)
end

/-- C5 counterexample: the membership query lowercases but does not trim:
with `"x.com"` in the collection, the query on `" x.com"` returns `false`
while the query on its lowercased-and-trimmed form returns `true`, so the
two are not equal as the claim states. -/
theorem c5_counterexample :
    isDomainTemporary stXcom " x.com" = false ∧
    isDomainTemporary stXcom (normalizeDomain " x.com") = true ∧
    isDomainTemporary stXcom " x.com" ≠
      isDomainTemporary stXcom (normalizeDomain " x.com") := by
  refine ⟨by decide, by decide, by decide⟩

/-- C5 (amended): `isDomainTemporary` normalizes by lowercasing only (no
trim): it is a total boolean membership test of the lowercased input, and
it is invariant under lowercasing the input. -/
theorem c5_membership_lowercases_only :
    (∀ (st : ServiceState) (s : String),
      isDomainTemporary st s = true ↔ toLowerStr s ∈ st.domains) ∧
    (∀ (st : ServiceState) (s : String),
      isDomainTemporary st (toLowerStr s) = isDomainTemporary st s) := by
  constructor
  · intro st s
    exact decide_eq_true_iff
  · intro st s
    unfold isDomainTemporary
    rw [toLowerStr_idem]

set_option maxRecDepth 40000 in
/-- C6 counterexample: in the scenario-1 state, `"mailinator.com"` is
reported as not temporary — it does not appear in the built-in list (only
variants such as `mailinator.net` do), contradicting the claimed
`isTemporary("mailinator.com") == true`. -/
theorem c6_counterexample :
    isDomainTemporary stScenario1 "mailinator.com" = false := by
  rw [stScenario1_eq]
  simp only [isDomainTemporary, decide_eq_false_iff_not, List.mem_toFinset]
  decide

set_option maxRecDepth 40000 in
/-- C6 (amended): in the scenario-1 state (fresh service, no persisted
file, `autoUpdate=false`, `customDomains=["x.com"]`), `x.com` is
temporary, `gmail.com` is not, `mailinator.com` is not (it is absent from
the built-in list), while the built-in variant `mailinator.net` is. -/
theorem c6_scenario1_membership :
    isDomainTemporary stScenario1 "x.com" = true ∧
    isDomainTemporary stScenario1 "gmail.com" = false ∧
    isDomainTemporary stScenario1 "mailinator.com" = false ∧
    isDomainTemporary stScenario1 "mailinator.net" = true := by
  rw [stScenario1_eq]
  refine ⟨?_, ?_, ?_, ?_⟩
  · simp only [isDomainTemporary, decide_eq_true_eq, List.mem_toFinset]
    decide
  · simp only [isDomainTemporary, decide_eq_false_iff_not, List.mem_toFinset]
    decide
  · simp only [isDomainTemporary, decide_eq_false_iff_not, List.mem_toFinset]
    decide
  · simp only [isDomainTemporary, decide_eq_true_eq, List.mem_toFinset]
    decide

/-- C7 counterexample: `search("temp")` on the scenario-4 collection
returns only `temp-mail.org`; the claimed two-element result is wrong
because `"10minutemail.com"` does not contain the substring `"temp"`
(only `"tem"`). -/
theorem c7_counterexample :
    searchDomainsRun stScenario4 "temp" =
      some (Except.ok ({"temp-mail.org"} : Finset String), stScenario4) ∧
    ({"temp-mail.org"} : Finset String) ≠
      ({"10minutemail.com", "temp-mail.org"} : Finset String) :=
  ⟨rfl, by decide⟩

/-- C7 (amended): on the scenario-4 collection, `search("temp")` returns
exactly `{temp-mail.org}` with the collection unchanged: the compiled
case-insensitive pattern matches a substring of `temp-mail.org` but of
neither `10minutemail.com` nor `gmail.com`. -/
theorem c7_search_scenario4 :
    searchDomainsRun stScenario4 "temp" =
      some (Except.ok ({"temp-mail.org"} : Finset String), stScenario4) ∧
    jsTest cTemp "temp-mail.org".data = true ∧
    jsTest cTemp "10minutemail.com".data = false ∧
    jsTest cTemp "gmail.com".data = false :=
  ⟨rfl, by decide, by decide, by decide⟩

/-- C8 counterexample: there is no busy flag — if the timer fires twice
before the first refresh settles, two refreshes are in flight, refuting
"at most one in-flight refresh / the new invocation is skipped". -/
theorem c8_counterexample :
    (schedRun ⟨true, 0⟩ [SchedEvent.tick, SchedEvent.tick]).inFlight = 2 ∧
    ¬((schedRun ⟨true, 0⟩ [SchedEvent.tick, SchedEvent.tick]).inFlight ≤ 1) := by
  exact ⟨rfl, by decide⟩

/-- C8 (amended): the interval callback of `setupAutoUpdate` starts a
refresh unconditionally whenever a timer is registered — in particular a
tick during an in-flight refresh starts a second one rather than being
skipped; no busy flag exists in the class. -/
theorem c8_tick_starts_unconditionally :
    ∀ s : SchedState, s.timerActive = true →
      (schedStep s .tick).inFlight = s.inFlight + 1 := by
  intro s h
  unfold schedStep
  rw [h]
  rfl

/-- Witness for C8 at a state with one refresh already in flight. -/
theorem c8_tick_starts_unconditionally_witness :
    (schedStep ⟨true, 1⟩ .tick).inFlight = 1 + 1 :=
  c8_tick_starts_unconditionally ⟨true, 1⟩ rfl

/-- C9: `destroy` only clears the timer handle: the domain collection and
the `lastUpdate` timestamp are untouched, every membership query returns
the same value before and after, and a second `destroy` is a no-op. -/
theorem c9_destroy_frame :
    ∀ st : ServiceState,
      (destroy st).domains = st.domains ∧
      (destroy st).lastUpdate = st.lastUpdate ∧
      (∀ d, isDomainTemporary (destroy st) d = isDomainTemporary st d) ∧
      destroy (destroy st) = destroy st := by
  intro st
  exact ⟨rfl, rfl, fun d => rfl, rfl⟩

